import Mathlib

/-!
# Tool-rental system: shallow embedding of `src/backend/server.js`

This file embeds the data model and the mutating operations of the
Express backend (`server.js`) as executable Lean definitions, and proves
or refutes the frozen specification claims about them.

Conventions of the embedding:
* JS numbers used as counts (`quantity`, `rented`, `available`, ids,
  scores) are modelled as `ℤ`; money and the internal 0–1 AI score as `ℚ`.
* `req.body` fields arrive already parsed (`parseInt`/`parseFloat` are
  the transport layer); a field that may be `undefined` is an `Option`.
* In-place mutation of an object found by `Array.prototype.find` is
  modelled by rewriting the first list element matching the same
  predicate (`updateFirst`).
* Calls to the randomized scorers from the return pipeline are modelled
  by oracle parameters carrying the value the scorer returned; the
  scorers themselves are modelled separately with their random draws as
  explicit bounded parameters.
* Filesystem facts the code branches on (`fs.existsSync`) are Boolean
  parameters; `fs.unlinkSync` of the upload is recorded in a
  `fileDeleted` result field.
-/

namespace ToolRental

/-- A tool record, fields as created by `POST /api/admin/tools`
(`server.js` lines 268–278).  `description`/`specs` carry no logic used
by any claim and are omitted. -/
structure Tool where
  id : String
  name : String
  price : ℚ
  quantity : ℤ
  rented : ℤ
  available : ℤ
  beforeImage : Option String
  deriving Repr, DecidableEq

/-- A rental record as created by `POST /api/rent` (lines 311–321). -/
structure Rental where
  rentalId : String
  toolId : String
  userId : ℤ
  userName : String
  userEmail : String
  rentDays : ℤ
  totalPrice : ℚ
  rentalDate : String
  status : String
  returnDate : Option String
  afterImage : Option String
  deriving Repr, DecidableEq

/-- An audit log entry as created by `POST /api/return/check`
(lines 415–432). -/
structure LogEntry where
  id : ℤ
  toolId : String
  userId : ℤ
  userName : String
  rentalId : String
  beforeImage : Option String
  afterImage : String
  damageScore : ℤ
  aiDetected : Bool
  aiConfidence : ℤ
  damageDetected : Bool
  damageConfidence : ℤ
  imageSimilarity : ℤ
  status : String
  timestamp : String
  action : String
  deriving Repr, DecidableEq

/-- The persisted document (`db.json`).  The `admin` and `users` keys
carry no logic relevant to the claims and are omitted. -/
structure DB where
  tools : List Tool
  rentals : List Rental
  logs : List LogEntry
  deriving Repr, DecidableEq

/-- Rewrite the first element satisfying `p` with `f`: the Lean image of
mutating, in place, the object returned by `Array.prototype.find` /
`findIndex`. -/
def updateFirst (p : α → Bool) (f : α → α) : List α → List α
  | [] => []
  | x :: xs => if p x then f x :: xs else x :: updateFirst p f xs

/-- JS truthiness of a possibly-absent string (`if (tool.beforeImage)`):
`undefined` and the empty string are falsy. -/
def strTruthy : Option String → Bool
  | none => false
  | some s => !(s == "")

/-! ## Rent operation — `POST /api/rent` (lines 299–326) -/

/-- The request body of `POST /api/rent`, with `userId`, `rentDays`
already `parseInt`-ed and `totalPrice` already `parseFloat`-ed. -/
structure RentRequest where
  toolId : String
  userId : ℤ
  userName : String
  userEmail : String
  rentDays : ℤ
  totalPrice : ℚ
  deriving Repr, DecidableEq

/-- Outcome of a rent request: HTTP status, the JSON `success`/`message`
fields, the document after the handler ran, and the rental included in a
success response. -/
structure RentResult where
  status : ℤ
  success : Bool
  message : String
  db : DB
  rental : Option Rental
  deriving Repr, DecidableEq

/-- `POST /api/rent`.  `newRentalId` stands for the fresh `uuidv4()` and
`rentalDate` for `new Date().toISOString()`. -/
def rent (db : DB) (req : RentRequest) (newRentalId rentalDate : String) : RentResult :=
  match db.tools.find? (fun t => t.id == req.toolId) with
  | none =>
      { status := 400, success := false, message := "Tool is unavailable.",
        db := db, rental := none }
  | some tool =>
      if tool.available ≤ 0 then
        { status := 400, success := false, message := "Tool is unavailable.",
          db := db, rental := none }
      else
        let newRental : Rental :=
          { rentalId := newRentalId, toolId := req.toolId, userId := req.userId,
            userName := req.userName, userEmail := req.userEmail,
            rentDays := req.rentDays, totalPrice := req.totalPrice,
            rentalDate := rentalDate, status := "RENTED",
            returnDate := none, afterImage := none }
        { status := 200, success := true, message := "Tool rented successfully.",
          db := { db with
            tools := updateFirst (fun t => t.id == req.toolId)
              (fun t => { t with rented := t.rented + 1, available := t.available - 1 })
              db.tools,
            rentals := db.rentals ++ [newRental] },
          rental := some newRental }

/-! ## Create/update tool — `POST /api/admin/tools` (lines 238–283) -/

/-- `name.toLowerCase().replace(/[^a-z0-9]/g, '-')` (line 262): every
character outside `[a-z0-9]` of the lowercased name is REPLACED by a
hyphen.  `Char.toLower` matches JS on ASCII input. -/
def newToolId (name : String) : String :=
  String.mk ((name.data.map Char.toLower).map
    (fun c => if (('a' ≤ c ∧ c ≤ 'z') ∨ ('0' ≤ c ∧ c ≤ '9')) then c else '-'))

/-- Rendered from the spec sentence "derives `id` from `name` by
lowercasing and stripping to `[a-z0-9-]`": characters outside the class
are REMOVED.  Kept only to compare against `newToolId`, the derivation
the code performs. -/
def specStripId (name : String) : String :=
  String.mk ((name.data.map Char.toLower).filter
    (fun c => (('a' ≤ c ∧ c ≤ 'z') ∨ ('0' ≤ c ∧ c ≤ '9') ∨ c = '-')))

/-- Request body of `POST /api/admin/tools`; `id` is `none` when the
client sent no id (create).  `quantity` is already `parseInt`-ed and
`price` `parseFloat`-ed. -/
structure AdminToolRequest where
  id : Option String
  name : String
  price : ℚ
  quantity : ℤ
  beforeImage : Option String
  deriving Repr, DecidableEq

/-- The tool record the create path builds (lines 268–278): derived id,
`rented: 0`, `available: parseInt(quantity)`. -/
def newToolOf (req : AdminToolRequest) : Tool :=
  { id := newToolId req.name, name := req.name, beforeImage := req.beforeImage,
    price := req.price, quantity := req.quantity,
    rented := 0, available := req.quantity }

/-- Outcome of `POST /api/admin/tools`. -/
structure AdminToolResult where
  status : ℤ
  success : Bool
  message : String
  db : DB
  tool : Option Tool
  deriving Repr, DecidableEq

/-- `POST /api/admin/tools`: update when `req.id` matches an existing
tool, otherwise create under the derived id (lines 241–283). -/
def adminTools (db : DB) (req : AdminToolRequest) : AdminToolResult :=
  match db.tools.find? (fun t => some t.id == req.id) with
  | some tool =>
      if req.quantity < tool.rented then
        { status := 400, success := false,
          message := "Cannot reduce quantity below rented.", db := db, tool := none }
      else
        let upd : Tool → Tool := fun t =>
          { t with
            name := req.name, price := req.price, quantity := req.quantity,
            available := req.quantity - t.rented, beforeImage := req.beforeImage }
        { status := 200, success := true, message := "Tool updated successfully.",
          db := { db with
            tools := updateFirst (fun t => some t.id == req.id) upd db.tools },
          tool := some (upd tool) }
  | none =>
      if db.tools.any (fun t => t.id == newToolId req.name) then
        { status := 400, success := false, message := "Tool name already exists.",
          db := db, tool := none }
      else
        { status := 200, success := true, message := "New tool added successfully.",
          db := { db with tools := db.tools ++ [newToolOf req] },
          tool := some (newToolOf req) }

/-! ## Audit resolution — `POST /api/admin/logs/action` (lines 464–492) -/

/-- Outcome of `POST /api/admin/logs/action`. -/
structure LogActionResult where
  status : ℤ
  success : Bool
  message : String
  db : DB
  deriving Repr, DecidableEq

/-- `POST /api/admin/logs/action` (lines 464–492): look up the log by
`parseInt(logId)`, then its tool; `Repaired`/`MakeAvailable` increment
`available` uncapped, `Remove` decrements `quantity` (floored at 0) and
clamps `available` down to the new quantity; the log becomes
`RESOLVED` in every found-log path. -/
def logsAction (db : DB) (logId : ℤ) (action : String) : LogActionResult :=
  match db.logs.find? (fun l => l.id == logId) with
  | none =>
      { status := 400, success := false, message := "Log not found.", db := db }
  | some log =>
      let resolvedLogs :=
        updateFirst (fun l => l.id == logId) (fun l => { l with action := "RESOLVED" }) db.logs
      match db.tools.find? (fun t => t.id == log.toolId) with
      | none =>
          { status := 404, success := false, message := "Tool not found.",
            db := { db with logs := resolvedLogs } }
      | some _ =>
          let toolUpd : Tool → Tool := fun t =>
            if action == "Repaired" then { t with available := t.available + 1 }
            else if action == "Remove" then
              let q := max 0 (t.quantity - 1)
              { t with quantity := q, available := min t.available q }
            else if action == "MakeAvailable" then { t with available := t.available + 1 }
            else t
          { status := 200, success := true, message := "Log resolved.",
            db := { db with
              tools := updateFirst (fun t => t.id == log.toolId) toolUpd db.tools,
              logs := resolvedLogs } }

/-! ## Authenticity scorer — `detectAIImage` (lines 125–159)

The two `Math.random()` draws feeding `aiScore` are explicit parameters
`r1` (`Math.random() * 0.4`) and `r2` (`Math.random() * 0.2`); the
independent damage draws are the parameters `dmgDetected`/`dmgConf`. -/

/-- The fixed keyword vocabulary of line 133. -/
def aiKeywords : List String := ["ai", "generated", "stable", "dall", "midjourney"]

/-- `s.toLowerCase()` on ASCII input. -/
def lowerStr (s : String) : String := String.mk (s.data.map Char.toLower)

/-- `path.extname(fileName)`: the substring from the last dot onward,
empty when there is no dot or the only dot is the leading character. -/
def extname (s : String) : String :=
  match (s.data.reverse.findIdx? (fun c => c == '.')).map
      (fun k => s.data.length - 1 - k) with
  | none => ""
  | some 0 => ""
  | some i => String.mk (s.data.drop i)

/-- The deterministic plus random parts of `aiScore` (lines 126–143),
on the internal 0–1 scale. -/
def aiScore (fileName : String) (fileSize : ℕ) (r1 r2 : ℚ) : ℚ :=
  let sizeLow : ℚ := if fileSize < 50000 then 3/10 else 0
  let sizeHigh : ℚ := if fileSize > 5000000 then 1/10 else 0
  let lowerFileName := lowerStr fileName
  let kw : ℚ :=
    if aiKeywords.any (fun k => decide (k.data <:+: lowerFileName.data)) then 4/10 else 0
  let ext := lowerStr (extname fileName)
  let extPng : ℚ := if ext == ".png" then 2/10 else 0
  let extWebp : ℚ := if ext == ".webp" then 15/100 else 0
  sizeLow + sizeHigh + kw + extPng + extWebp + r1 + r2

/-- The record returned by `detectAIImage` (lines 151–158);
`warnings` is always `[]` in the source and is omitted. -/
structure AIResult where
  is_ai_generated : Bool
  confidence : ℤ
  allow_upload : Bool
  damage_detected : Bool
  damage_confidence : ℤ
  deriving Repr, DecidableEq

/-- `detectAIImage(filePath, fileName, fileSize)` (lines 125–159).  The
`filePath` argument is unused by the source.  `Math.round` agrees with
Mathlib `round` (both are floor of `x + 1/2`). -/
def detectAIImage (fileName : String) (fileSize : ℕ) (r1 r2 : ℚ)
    (dmgDetected : Bool) (dmgConf : ℤ) : AIResult :=
  let score := aiScore fileName fileSize r1 r2
  let isAIGenerated : Bool := decide (score > 7/10)
  let confidence : ℤ := min 98 (round (score * 100))
  { is_ai_generated := isAIGenerated,
    confidence := confidence,
    allow_upload := !isAIGenerated || decide (confidence < 80),
    damage_detected := dmgDetected,
    damage_confidence := dmgConf }

/-! ## Return pipeline — `POST /api/return/check` (lines 356–451)

The handler's calls to the randomized scorers are modelled by oracles:
`ai` is the record `detectAIImage` returned for the upload, `cmp` the
record `compareImages` would return if invoked.  `beforeFileExists`
models `fs.existsSync(originalPath)` (line 386); `saveOk` is the Boolean
that `writeDB(db)` returns at line 435 — the handler discards it. -/

/-- What the pipeline uses of `req.file`. -/
structure UploadedFile where
  filename : String
  deriving Repr, DecidableEq

/-- Request fields of `POST /api/return/check` (`userId` already
`parseInt`-ed). -/
structure ReturnRequest where
  toolId : String
  rentalId : String
  userId : ℤ
  deriving Repr, DecidableEq

/-- The result record of `compareImages` (lines 173–176). -/
structure CompareResult where
  similar : Bool
  score : ℤ
  deriving Repr, DecidableEq

/-- Outcome of `POST /api/return/check`; `fileDeleted` records whether
the handler called `fs.unlinkSync(req.file.path)`. -/
structure ReturnResult where
  status : ℤ
  success : Bool
  message : String
  db : DB
  fileDeleted : Bool
  deriving Repr, DecidableEq

set_option linter.unusedVariables false in
/-- `POST /api/return/check` (lines 356–451).  `dmgRand` stands for the
`Math.floor(Math.random() * 30)` fallback of line 423 and `timestamp`
for `new Date().toISOString()`.  `saveOk` is genuinely unused: the
handler drops the value `writeDB` returns. -/
def returnCheck (db : DB) (req : ReturnRequest) (file : Option UploadedFile)
    (ai : AIResult) (beforeFileExists : Bool) (cmp : CompareResult)
    (dmgRand : ℤ) (timestamp : String) (saveOk : Bool) : ReturnResult :=
  match file with
  | none => { status := 400, success := false, message := "No image uploaded.",
              db := db, fileDeleted := false }
  | some f =>
    match db.tools.find? (fun t => t.id == req.toolId) with
    | none => { status := 400, success := false, message := "Tool not found.",
                db := db, fileDeleted := false }
    | some tool =>
      if !ai.allow_upload then
        { status := 400, success := false,
          message := "The uploaded image appears to be AI-generated. Please upload a real photo.",
          db := db, fileDeleted := true }
      else
        -- lines 383–396: the comparison runs only when `tool.beforeImage`
        -- is truthy AND the reference file exists on disk
        let simRuns : Bool := strTruthy tool.beforeImage && beforeFileExists
        let comparisonResult : CompareResult := if simRuns then cmp else ⟨false, 0⟩
        if simRuns && (!cmp.similar || cmp.score < 60) then
          { status := 400, success := false,
            message := "The uploaded image does not appear to show the same tool.",
            db := db, fileDeleted := true }
        else
          match db.rentals.findIdx? (fun r => r.rentalId == req.rentalId) with
          | none =>
              { status := 404, success := false, message := "Rental not found.",
                db := db, fileDeleted := true }
          | some rentalIndex =>
              let rentals' := updateFirst (fun r => r.rentalId == req.rentalId)
                (fun r => { r with
                  status := "RETURNED", returnDate := some timestamp,
                  afterImage := some f.filename }) db.rentals
              let tools' := updateFirst (fun t => t.id == req.toolId)
                (fun t => { t with
                  rented := max 0 (t.rented - 1), available := t.available + 1 }) db.tools
              -- line 414: `db.logs.length ? Math.max(...db.logs.map(l => l.id)) + 1 : 1`
              let newLogId : ℤ :=
                match (db.logs.map (fun l => l.id)).max? with
                | none => 1
                | some m => m + 1
              let logEntry : LogEntry :=
                { id := newLogId, toolId := req.toolId, userId := req.userId,
                  userName := ((db.rentals.get? rentalIndex).map
                    (fun r => r.userName)).getD "",
                  rentalId := req.rentalId,
                  beforeImage := tool.beforeImage, afterImage := f.filename,
                  damageScore := if ai.damage_detected then max 70 ai.damage_confidence
                    else dmgRand,
                  aiDetected := ai.is_ai_generated, aiConfidence := ai.confidence,
                  damageDetected := ai.damage_detected,
                  damageConfidence := ai.damage_confidence,
                  imageSimilarity := comparisonResult.score,
                  status := if ai.confidence > 70 then "AI Detected - Review Required"
                    else "Available",
                  timestamp := timestamp, action := "AUTO-RESOLVED" }
              let db' : DB := { tools := tools', rentals := rentals',
                                logs := db.logs ++ [logEntry] }
              -- line 435: `writeDB(db)` — its Boolean result `saveOk` is
              -- discarded; the response below does not depend on it
              { status := 200, success := true,
                message := "Tool returned successfully.",
                db := db', fileDeleted := false }

/-! ## Document store — `writeDB` (lines 75–100)

`writeDB` serializes the whole document and performs exactly two
filesystem steps: `fs.writeFileSync(DB_PATH + '.tmp', json)` then
`fs.renameSync(tempPath, DB_PATH)`.  The filesystem is a map from paths
to contents; `rename` is atomic (POSIX `rename(2)`), while a crash in
the middle of a `writeFile` may leave its target with arbitrary torn
content.  A crash point is: `k` completed steps, plus optionally a torn
write to the target of step `k` when that step is a `writeFile`. -/

/-- `DB_PATH` (relative part). -/
def dbPath : String := "db.json"

/-- `DB_PATH + '.tmp'` (line 80). -/
def tmpPath : String := "db.json.tmp"

/-- The filesystem steps `writeDB` can take. -/
inductive FSOp where
  | writeFile (p c : String)
  | rename (src dst : String)

/-- A filesystem: contents by path. -/
def FSys := String → Option String

/-- Effect of one completed step. -/
def applyOp (fs : FSys) : FSOp → FSys
  | .writeFile p c => fun q => if q = p then some c else fs q
  | .rename src dst => fun q =>
      if q = dst then fs src else if q = src then none else fs q

/-- Run a sequence of completed steps. -/
def runOps (fs : FSys) (ops : List FSOp) : FSys := ops.foldl applyOp fs

/-- The step sequence of `writeDB` for serialized document `c`
(lines 80–84): write the temp sibling, then rename it over the
canonical path. -/
def writeDBOps (c : String) : List FSOp :=
  [FSOp.writeFile tmpPath c, FSOp.rename tmpPath dbPath]

/-- The filesystem seen after a crash: steps `0..k-1` completed, and if
`torn = some junk` and step `k` is a `writeFile`, that file holds the
torn content `junk`. -/
def crashDuring (fs : FSys) (ops : List FSOp) (k : ℕ) (torn : Option String) : FSys :=
  let base := runOps fs (ops.take k)
  match torn, ops.drop k with
  | some junk, FSOp.writeFile p _ :: _ => applyOp base (.writeFile p junk)
  | _, _ => base

/-! ## The tool accounting invariant (spec §3 / §8) -/

/-- `available == quantity - rented` and `0 ≤ rented ≤ quantity`. -/
def toolInv (t : Tool) : Prop :=
  t.available = t.quantity - t.rented ∧ 0 ≤ t.rented ∧ t.rented ≤ t.quantity

instance (t : Tool) : Decidable (toolInv t) := by
  unfold toolInv; infer_instance

/-- Every tool of the document satisfies the accounting invariant. -/
def dbInv (db : DB) : Prop := ∀ t ∈ db.tools, toolInv t

instance (db : DB) : Decidable (dbInv db) := by
  unfold dbInv; infer_instance

/-! ## Concrete instances

Small concrete documents and requests used to evaluate the operations at
explicit inputs. -/

/-- An authenticity result that lets the upload through. -/
def aiPass : AIResult :=
  { is_ai_generated := false, confidence := 10, allow_upload := true,
    damage_detected := false, damage_confidence := 5 }

/-- A drill with both copies on the shelf. -/
def toolFree : Tool :=
  { id := "drill", name := "Drill", price := 10, quantity := 2, rented := 0,
    available := 2, beforeImage := none }

/-- A single-copy drill, not currently rented (all copies returned). -/
def toolIdle : Tool :=
  { id := "drill", name := "Drill", price := 10, quantity := 1, rented := 0,
    available := 1, beforeImage := none }

/-- A single-copy drill whose copy is out: `available = 0`. -/
def toolOut : Tool :=
  { id := "drill", name := "Drill", price := 10, quantity := 1, rented := 1,
    available := 0, beforeImage := none }

/-- A two-copy drill with one copy out and a reference before image. -/
def toolBefore : Tool :=
  { id := "drill", name := "Drill", price := 10, quantity := 2, rented := 1,
    available := 1, beforeImage := some "drill.jpg" }

/-- A rental of the drill that is still open. -/
def rentalOpen : Rental :=
  { rentalId := "r1", toolId := "drill", userId := 1, userName := "u",
    userEmail := "u@example.com", rentDays := 3, totalPrice := 30,
    rentalDate := "d0", status := "RENTED", returnDate := none, afterImage := none }

/-- A rental of the drill that has already been returned. -/
def rentalDone : Rental :=
  { rentalOpen with
    status := "RETURNED", returnDate := some "d1", afterImage := some "a.jpg" }

/-- An unresolved audit log entry for the drill. -/
def logPending : LogEntry :=
  { id := 1, toolId := "drill", userId := 1, userName := "u", rentalId := "r1",
    beforeImage := none, afterImage := "a.jpg", damageScore := 5,
    aiDetected := false, aiConfidence := 10, damageDetected := false,
    damageConfidence := 5, imageSimilarity := 80, status := "Available",
    timestamp := "t0", action := "AUTO-RESOLVED" }

/-- The empty document. -/
def dbEmpty : DB := { tools := [], rentals := [], logs := [] }

/-- Document whose only rental is already `RETURNED` and whose drill has
every copy back on the shelf. -/
def dbReturnedOnce : DB := { tools := [toolIdle], rentals := [rentalDone], logs := [] }

/-- Document with an idle drill and one pending audit log. -/
def dbWithLog : DB := { tools := [toolFree], rentals := [], logs := [logPending] }

/-- Document with an open rental of a drill that has no before image. -/
def dbOpenRental : DB := { tools := [toolFree], rentals := [rentalOpen], logs := [] }

/-- Document with an open rental of a drill that has a before image. -/
def dbOpenBefore : DB := { tools := [toolBefore], rentals := [rentalOpen], logs := [] }

/-- Document whose drill is out of stock. -/
def dbOut : DB := { tools := [toolOut], rentals := [], logs := [] }

/-- The return request matching `rentalOpen`/`rentalDone`. -/
def retReq : ReturnRequest := { toolId := "drill", rentalId := "r1", userId := 1 }

/-- A rent request for the drill. -/
def rentReq : RentRequest :=
  { toolId := "drill", userId := 1, userName := "u", userEmail := "u@example.com",
    rentDays := 3, totalPrice := 30 }

/-- A create request named `Drill` (spec Scenario A). -/
def reqDrill : AdminToolRequest :=
  { id := none, name := "Drill", price := 10, quantity := 2, beforeImage := none }

/-- A create request whose name contains a space. -/
def reqPowerSaw : AdminToolRequest :=
  { id := none, name := "Power Saw", price := 10, quantity := 2, beforeImage := none }

/-- A saw with its single copy out, kept next to the idle drill. -/
def sawOut : Tool :=
  { id := "saw", name := "Saw", price := 5, quantity := 1, rented := 1,
    available := 0, beforeImage := none }

/-- Two-tool document: the pending audit log targets the idle drill
while the saw has a copy out. -/
def dbMixed : DB := { tools := [toolFree, sawOut], rentals := [], logs := [logPending] }

/-- An update request for the drill carrying a negative quantity. -/
def reqNegQty : AdminToolRequest :=
  { id := some "drill", name := "Drill", price := 10, quantity := -4,
    beforeImage := none }

/-- A concrete starting filesystem holding an old canonical document. -/
def fsOld : FSys := fun q => if q = "db.json" then some "olddoc" else none

/-- The rental `rent dbOpenRental rentReq "rid" "d"` creates. -/
def rentalStored : Rental :=
  { rentalId := "rid", toolId := "drill", userId := 1, userName := "u",
    userEmail := "u@example.com", rentDays := 3, totalPrice := 30,
    rentalDate := "d", status := "RENTED", returnDate := none, afterImage := none }

/-! ## General lemmas -/

theorem updateFirst_mem {α : Type} {p : α → Bool} {f : α → α} {l : List α} {x : α}
    (hx : x ∈ updateFirst p f l) :
    x ∈ l ∨ ∃ y, l.find? p = some y ∧ x = f y := by
  induction l with
  | nil => simp [updateFirst] at hx
  | cons a l ih =>
    by_cases hpa : p a
    · rw [updateFirst, if_pos hpa] at hx
      rcases List.mem_cons.mp hx with h | h
      · exact Or.inr ⟨a, List.find?_cons_of_pos _ hpa, h⟩
      · exact Or.inl (List.mem_cons_of_mem _ h)
    · rw [updateFirst, if_neg hpa] at hx
      rcases List.mem_cons.mp hx with h | h
      · exact Or.inl (h ▸ List.mem_cons_self _ _)
      · rcases ih h with h' | ⟨y, hy, hxy⟩
        · exact Or.inl (List.mem_cons_of_mem _ h')
        · refine Or.inr ⟨y, ?_, hxy⟩
          rw [List.find?_cons_of_neg _ hpa, hy]

/-! ## Claims -/

/-- C4: a rent request for an existing tool with `available = 0` fails
with the `Tool is unavailable.` 400 response and returns the document
unchanged (`server.js` lines 304–306 guard before any mutation). -/
theorem rent_unavailable_rejected (db : DB) (req : RentRequest) (rid date : String)
    (t : Tool) (hfind : db.tools.find? (fun u => u.id == req.toolId) = some t)
    (hav : t.available = 0) :
    rent db req rid date =
      { status := 400, success := false, message := "Tool is unavailable.",
        db := db, rental := none } := by
  unfold rent
  rw [hfind]
  simp [hav]

/-- Witness for C4: the single-copy drill with its copy out. -/
theorem rent_unavailable_rejected_witness :
    rent dbOut rentReq "rid" "d" =
      { status := 400, success := false, message := "Tool is unavailable.",
        db := dbOut, rental := none } :=
  rent_unavailable_rejected dbOut rentReq "rid" "d" toolOut (by decide) (by decide)

/-- C9: a rent request whose `toolId` matches no tool takes the very
same `!tool || tool.available <= 0` branch (line 304) and produces the
identical `Tool is unavailable.` 400 response with the document
unchanged — there is no distinct not-found error on the rent path. -/
theorem rent_unknown_tool_same_error (db : DB) (req : RentRequest) (rid date : String)
    (hfind : db.tools.find? (fun u => u.id == req.toolId) = none) :
    rent db req rid date =
      { status := 400, success := false, message := "Tool is unavailable.",
        db := db, rental := none } := by
  unfold rent
  rw [hfind]

/-- Witness for C9: renting from the empty catalog. -/
theorem rent_unknown_tool_same_error_witness :
    rent dbEmpty rentReq "rid" "d" =
      { status := 400, success := false, message := "Tool is unavailable.",
        db := dbEmpty, rental := none } :=
  rent_unknown_tool_same_error dbEmpty rentReq "rid" "d" (by decide)

/-- C10: the rental a successful rent stores carries `totalPrice` and
`rentDays` verbatim from the request body (lines 317–318) — for every
document, hence for every tool price, so neither is computed from or
checked against `tool.price`. -/
theorem rent_stores_client_price (db : DB) (req : RentRequest) (rid date : String)
    (r : Rental) (hr : (rent db req rid date).rental = some r) :
    r.totalPrice = req.totalPrice ∧ r.rentDays = req.rentDays := by
  unfold rent at hr
  cases hfind : db.tools.find? (fun u => u.id == req.toolId) with
  | none => rw [hfind] at hr; simp at hr
  | some tool =>
    rw [hfind] at hr
    by_cases hav : tool.available ≤ 0
    · simp [hav] at hr
    · simp [hav] at hr
      subst hr
      exact ⟨rfl, rfl⟩

/-- Witness for C10: a concrete successful rent. -/
theorem rent_stores_client_price_witness :
    rentalStored.totalPrice = rentReq.totalPrice ∧
    rentalStored.rentDays = rentReq.rentDays :=
  rent_stores_client_price dbOpenRental rentReq "rid" "d" rentalStored (by decide)

/-- C1: the pipeline never checks `rental.status` (lines 399–411).
Re-submitting the already-`RETURNED` rental `r1` of `dbReturnedOnce`
passes `RENTAL_LOOKUP`, is answered `success: true`, and increments the
drill's `available` a second time, from 1 to 2 — above its quantity 1 —
instead of being a no-op error. -/
theorem returnCheck_double_return_increments :
    dbReturnedOnce.rentals.map Rental.status = ["RETURNED"] ∧
    dbReturnedOnce.tools.map Tool.available = [1] ∧
    dbReturnedOnce.tools.map Tool.quantity = [1] ∧
    (returnCheck dbReturnedOnce retReq (some ⟨"up2.jpg"⟩) aiPass false
      ⟨true, 90⟩ 7 "t2" true).success = true ∧
    (returnCheck dbReturnedOnce retReq (some ⟨"up2.jpg"⟩) aiPass false
      ⟨true, 90⟩ 7 "t2" true).db.tools.map Tool.available = [2] := by
  decide

/-- C3 counterexample: a return that reaches the persistence step with a
failing `writeDB` (`saveOk = false`) is still answered
`success: true`; the mutated document shows it got past every gate. -/
theorem returnCheck_success_despite_save_failure :
    (returnCheck dbOpenRental retReq (some ⟨"up.jpg"⟩) aiPass false
      ⟨true, 90⟩ 7 "t1" false).success = true ∧
    (returnCheck dbOpenRental retReq (some ⟨"up.jpg"⟩) aiPass false
      ⟨true, 90⟩ 7 "t1" false).db ≠ dbOpenRental := by
  decide

/-- C3 amended: the handler drops the Boolean `writeDB` returns
(line 435), so the whole response — status, `success`, message,
resulting document — is identical whether the save succeeded or
failed; a failed save is only logged inside `writeDB`. -/
theorem returnCheck_independent_of_save (db : DB) (req : ReturnRequest)
    (file : Option UploadedFile) (ai : AIResult) (bfe : Bool) (cmp : CompareResult)
    (dr : ℤ) (ts : String) :
    returnCheck db req file ai bfe cmp dr ts false =
      returnCheck db req file ai bfe cmp dr ts true := rfl

/-- C6 counterexample: for the name `"Power Saw"` the create path
derives the id `"power-saw"` — the space is REPLACED by a hyphen
(line 262) — while lowercasing plus stripping to `[a-z0-9-]`, as the
claim states it, yields `"powersaw"`. -/
theorem create_id_replaces_not_strips :
    (adminTools dbEmpty reqPowerSaw).tool.map Tool.id = some "power-saw" ∧
    specStripId "Power Saw" = "powersaw" ∧
    (adminTools dbEmpty reqPowerSaw).tool.map Tool.id ≠
      some (specStripId "Power Saw") := by
  decide

/-- C6 amended: the create path (request id matching no tool) derives
the id by lowercasing and replacing every character outside `[a-z0-9]`
with `-`, fails with the duplicate-tool 400 when that id collides, and
otherwise appends a tool with `rented 0` and `available` equal to the
requested quantity. -/
theorem create_tool_correct (db : DB) (req : AdminToolRequest)
    (hnew : db.tools.find? (fun t => some t.id == req.id) = none) :
    (db.tools.any (fun t => t.id == newToolId req.name) = true →
      adminTools db req =
        { status := 400, success := false, message := "Tool name already exists.",
          db := db, tool := none }) ∧
    (db.tools.any (fun t => t.id == newToolId req.name) = false →
      adminTools db req =
        { status := 200, success := true, message := "New tool added successfully.",
          db := { db with tools := db.tools ++ [newToolOf req] },
          tool := some (newToolOf req) } ∧
      (newToolOf req).id = newToolId req.name ∧
      (newToolOf req).rented = 0 ∧ (newToolOf req).available = req.quantity) := by
  unfold adminTools
  rw [hnew]
  constructor
  · intro h; simp [h]
  · intro h; simp [h, newToolOf]

/-- Witness for C6 (spec Scenario A): creating `Drill` with quantity 2
in the empty catalog yields id `drill`, `rented 0`, `available 2`. -/
theorem create_tool_correct_witness :
    (adminTools dbEmpty reqDrill =
      { status := 200, success := true, message := "New tool added successfully.",
        db := { dbEmpty with tools := dbEmpty.tools ++ [newToolOf reqDrill] },
        tool := some (newToolOf reqDrill) } ∧
     (newToolOf reqDrill).id = newToolId reqDrill.name ∧
     (newToolOf reqDrill).rented = 0 ∧
     (newToolOf reqDrill).available = reqDrill.quantity) ∧
    newToolId "Drill" = "drill" ∧ reqDrill.quantity = 2 :=
  ⟨(create_tool_correct dbEmpty reqDrill (by decide)).2 (by decide),
   by decide, by decide⟩

/-- C5: `writeDB` performs exactly a temp-sibling write followed by an
atomic rename (lines 80–84), so a crash after any number of completed
steps — including one tearing a write in progress — leaves the
canonical `db.json` holding either the complete old serialized document
or the complete new one. -/
theorem writeDB_crash_safe (fs : FSys) (oldC newC : String) (k : ℕ)
    (torn : Option String) (hold : fs dbPath = some oldC) :
    crashDuring fs (writeDBOps newC) k torn dbPath = some oldC ∨
    crashDuring fs (writeDBOps newC) k torn dbPath = some newC := by
  have hne : ¬ (dbPath = tmpPath) := by decide
  match k with
  | 0 =>
    left
    cases torn with
    | none => simpa [crashDuring, writeDBOps, runOps, applyOp] using hold
    | some junk => simpa [crashDuring, writeDBOps, runOps, applyOp, hne] using hold
  | 1 =>
    left
    cases torn with
    | none => simpa [crashDuring, writeDBOps, runOps, applyOp, hne] using hold
    | some junk => simpa [crashDuring, writeDBOps, runOps, applyOp, hne] using hold
  | (n + 2) =>
    right
    cases torn with
    | none => simp [crashDuring, writeDBOps, runOps, applyOp, hne]
    | some junk => simp [crashDuring, writeDBOps, runOps, applyOp, hne]

/-- Witness for C5: crashing mid-rename-step on a concrete filesystem
keeps the old canonical contents readable. -/
theorem writeDB_crash_safe_witness :
    crashDuring fsOld (writeDBOps "newdoc") 1 (some "junk") dbPath = some "olddoc" ∨
    crashDuring fsOld (writeDBOps "newdoc") 1 (some "junk") dbPath = some "newdoc" :=
  writeDB_crash_safe fsOld "olddoc" "newdoc" 1 (some "junk") (by decide)

/-- C7: for every file name/size and every value of the bounded random
draws, `detectAIImage` flags the image as synthetic exactly when the
internal 0–1 score exceeds 0.7, reports `confidence` as that score
mapped to 0–100 and capped at 98, and blocks the upload exactly when
the synthetic flag is set and the confidence is at least 80
(lines 148–154). -/
theorem detectAIImage_spec (fileName : String) (fileSize : ℕ) (r1 r2 : ℚ)
    (dmg : Bool) (dconf : ℤ)
    (_hbound : 0 ≤ r1 ∧ r1 < 2/5 ∧ 0 ≤ r2 ∧ r2 < 1/5) :
    ((detectAIImage fileName fileSize r1 r2 dmg dconf).is_ai_generated = true ↔
      7/10 < aiScore fileName fileSize r1 r2) ∧
    (detectAIImage fileName fileSize r1 r2 dmg dconf).confidence =
      min 98 (round (aiScore fileName fileSize r1 r2 * 100)) ∧
    ((detectAIImage fileName fileSize r1 r2 dmg dconf).allow_upload = false ↔
      ((detectAIImage fileName fileSize r1 r2 dmg dconf).is_ai_generated = true ∧
        80 ≤ (detectAIImage fileName fileSize r1 r2 dmg dconf).confidence)) := by
  refine ⟨?_, rfl, ?_⟩
  · simp [detectAIImage]
  · simp [detectAIImage, Bool.or_eq_false_iff, Bool.not_eq_false',
      decide_eq_true_iff, decide_eq_false_iff_not, not_lt]

/-- Witness for C7 at a concrete input. -/
theorem detectAIImage_spec_witness :
    ((detectAIImage "photo.jpg" 100000 (1/10) (1/10) false 5).is_ai_generated = true ↔
      7/10 < aiScore "photo.jpg" 100000 (1/10) (1/10)) ∧
    (detectAIImage "photo.jpg" 100000 (1/10) (1/10) false 5).confidence =
      min 98 (round (aiScore "photo.jpg" 100000 (1/10) (1/10) * 100)) ∧
    ((detectAIImage "photo.jpg" 100000 (1/10) (1/10) false 5).allow_upload = false ↔
      ((detectAIImage "photo.jpg" 100000 (1/10) (1/10) false 5).is_ai_generated = true ∧
        80 ≤ (detectAIImage "photo.jpg" 100000 (1/10) (1/10) false 5).confidence)) :=
  detectAIImage_spec "photo.jpg" 100000 (1/10) (1/10) false 5
    ⟨by norm_num, by norm_num, by norm_num, by norm_num⟩

/-! ## C2: the accounting invariant under each mutating operation -/

/-- Renting preserves the accounting invariant: the guard of line 304
admits only tools with `available > 0`. -/
theorem rent_preserves_inv (db : DB) (hdb : dbInv db) (req : RentRequest)
    (rid date : String) : dbInv (rent db req rid date).db := by
  unfold rent
  cases hfind : db.tools.find? (fun u => u.id == req.toolId) with
  | none => exact hdb
  | some tool =>
    by_cases hav : tool.available ≤ 0
    · simp only [if_pos hav]
      exact hdb
    · simp only [if_neg hav]
      unfold dbInv
      intro t ht
      simp only at ht
      rcases updateFirst_mem ht with hmem | ⟨y, hy, rfl⟩
      · exact hdb t hmem
      · rw [hfind] at hy
        injection hy with hy
        subst hy
        have hti := hdb tool (List.mem_of_find?_eq_some hfind)
        simp only [toolInv] at hti ⊢
        omega

/-- Create/update of a tool preserves the accounting invariant; only
the create path (request id matching no tool) needs the requested
quantity nonnegative.  The update path is unconditional: it is guarded
by `newQuantity < tool.rented` (line 249) and recomputes
`available = newQuantity - rented`; the create path starts at
`rented 0`, `available = quantity`. -/
theorem adminTools_preserves_inv (db : DB) (hdb : dbInv db)
    (req : AdminToolRequest)
    (hq : db.tools.find? (fun t => some t.id == req.id) = none → 0 ≤ req.quantity) :
    dbInv (adminTools db req).db := by
  unfold adminTools
  cases hfind : db.tools.find? (fun t => some t.id == req.id) with
  | some tool =>
    by_cases hlow : req.quantity < tool.rented
    · simp only [if_pos hlow]
      exact hdb
    · simp only [if_neg hlow]
      unfold dbInv
      intro t ht
      simp only at ht
      rcases updateFirst_mem ht with hmem | ⟨y, hy, rfl⟩
      · exact hdb t hmem
      · rw [hfind] at hy
        injection hy with hy
        subst hy
        have hti := hdb tool (List.mem_of_find?_eq_some hfind)
        simp only [toolInv, true_and] at hti ⊢
        omega
  | none =>
    have hq0 : 0 ≤ req.quantity := hq hfind
    by_cases hdup : (db.tools.any (fun t => t.id == newToolId req.name)) = true
    · simp only [if_pos hdup]
      exact hdb
    · simp only [if_neg hdup]
      unfold dbInv
      intro t ht
      simp only at ht
      rcases List.mem_append.mp ht with hmem | hnew
      · exact hdb t hmem
      · rw [List.mem_singleton] at hnew
        subst hnew
        simp only [toolInv, newToolOf]
        omega

/-- Audit resolution with action `Remove` preserves the accounting
invariant when the tool the resolved log refers to has no copy
currently rented (the geometry of the clamp at lines 483–484 only
matches the invariant at `rented = 0`); the other tools of the document
may be rented arbitrarily, since lines 480–487 touch only the log's
tool. -/
theorem logsRemove_preserves_inv (db : DB) (hdb : dbInv db) (logId : ℤ)
    (hzero : ∀ l ∈ db.logs, l.id = logId →
      ∀ t ∈ db.tools, t.id = l.toolId → t.rented = 0) :
    dbInv (logsAction db logId "Remove").db := by
  unfold logsAction
  cases hlog : db.logs.find? (fun l => l.id == logId) with
  | none => exact hdb
  | some log =>
    dsimp only
    cases htool : db.tools.find? (fun t => t.id == log.toolId) with
    | none => exact fun t ht => hdb t ht
    | some tool =>
      unfold dbInv
      intro t ht
      dsimp only at ht
      rcases updateFirst_mem ht with hmem | ⟨y, hy, rfl⟩
      · exact hdb t hmem
      · rw [htool] at hy
        injection hy with hy
        subst hy
        have hlid : log.id = logId := by simpa using List.find?_some hlog
        have htid : tool.id = log.toolId := by simpa using List.find?_some htool
        have hti := hdb tool (List.mem_of_find?_eq_some htool)
        have hz := hzero log (List.mem_of_find?_eq_some hlog) hlid
          tool (List.mem_of_find?_eq_some htool) htid
        have hb1 : (("Remove" : String) == "Repaired") = false := by decide
        have hb2 : (("Remove" : String) == "Remove") = true := by decide
        simp only [hb1, hb2, Bool.false_eq_true, if_false, if_true, toolInv] at hti ⊢
        omega

/-- The return pipeline preserves the accounting invariant whenever the
tool being returned still has a copy out (`rented > 0`), so that the
floor in `Math.max(0, rented - 1)` (line 410) does not engage. -/
theorem returnCheck_preserves_inv (db : DB) (hdb : dbInv db) (req : ReturnRequest)
    (file : Option UploadedFile) (ai : AIResult) (bfe : Bool) (cmp : CompareResult)
    (dr : ℤ) (ts : String) (sok : Bool)
    (hrented : ∀ t ∈ db.tools, t.id = req.toolId → 0 < t.rented) :
    dbInv (returnCheck db req file ai bfe cmp dr ts sok).db := by
  unfold returnCheck
  cases file with
  | none => exact hdb
  | some f =>
    cases hfind : db.tools.find? (fun t => t.id == req.toolId) with
    | none => exact hdb
    | some tool =>
      by_cases hallow : (!ai.allow_upload) = true
      · simp only [if_pos hallow]
        exact hdb
      · simp only [if_neg hallow]
        by_cases hsim : (strTruthy tool.beforeImage && bfe &&
            (!cmp.similar || decide (cmp.score < 60))) = true
        · simp only [if_pos hsim]
          exact hdb
        · simp only [if_neg hsim]
          cases hidx : db.rentals.findIdx? (fun r => r.rentalId == req.rentalId) with
          | none => exact hdb
          | some rentalIndex =>
            unfold dbInv
            intro t ht
            simp only at ht
            rcases updateFirst_mem ht with hmem | ⟨y, hy, rfl⟩
            · exact hdb t hmem
            · have hpy := List.find?_some hy
              have hymem := List.mem_of_find?_eq_some hy
              have hyid : y.id = req.toolId := by
                simpa using hpy
              have hyr : 0 < y.rented := hrented y hymem hyid
              have hti := hdb y hymem
              simp only [toolInv] at hti ⊢
              omega

/-- C2 counterexample: `dbWithLog` satisfies the invariant, yet
resolving its pending log with action `Repaired` leaves the drill with
`available 3` against `quantity 2`, `rented 0` — the uncapped increment
of line 481 breaks `available = quantity - rented`. -/
theorem repaired_breaks_invariant :
    dbInv dbWithLog ∧
    ¬ dbInv (logsAction dbWithLog 1 "Repaired").db ∧
    (logsAction dbWithLog 1 "Repaired").db.tools.map Tool.available = [3] ∧
    dbWithLog.tools.map Tool.quantity = [2] ∧
    dbWithLog.tools.map Tool.rented = [0] := by
  decide

/-- C2 amended: starting from a document satisfying the accounting
invariant, renting, tool update, tool create with a nonnegative
requested quantity, audit `Remove` while the resolved log's tool has no
copy rented, and the return pipeline while the returned tool has
`rented > 0` all preserve it; the remaining audit actions
(`Repaired`/`MakeAvailable`) increment `available` uncapped and break
it, per the counterexample. -/
theorem invariant_preservation (db : DB) (hdb : dbInv db) :
    (∀ req rid date, dbInv (rent db req rid date).db) ∧
    (∀ req : AdminToolRequest,
      (db.tools.find? (fun t => some t.id == req.id) = none → 0 ≤ req.quantity) →
      dbInv (adminTools db req).db) ∧
    (∀ logId, (∀ l ∈ db.logs, l.id = logId →
        ∀ t ∈ db.tools, t.id = l.toolId → t.rented = 0) →
      dbInv (logsAction db logId "Remove").db) ∧
    (∀ req file ai bfe cmp dr ts sok,
      (∀ t ∈ db.tools, t.id = req.toolId → 0 < t.rented) →
      dbInv (returnCheck db req file ai bfe cmp dr ts sok).db) :=
  ⟨fun req rid date => rent_preserves_inv db hdb req rid date,
   fun req hq => adminTools_preserves_inv db hdb req hq,
   fun logId hz => logsRemove_preserves_inv db hdb logId hz,
   fun req file ai bfe cmp dr ts sok hr =>
     returnCheck_preserves_inv db hdb req file ai bfe cmp dr ts sok hr⟩

/-- Witness for C2 at concrete documents and requests; `dbMixed` has its
saw rented out while the resolved log targets the idle drill, and the
update-path instance uses a negative requested quantity. -/
theorem invariant_preservation_witness :
    dbInv (rent dbMixed rentReq "rid" "d").db ∧
    dbInv (adminTools dbMixed reqPowerSaw).db ∧
    dbInv (adminTools dbMixed reqNegQty).db ∧
    dbInv (logsAction dbMixed 1 "Remove").db ∧
    dbInv (returnCheck dbOpenBefore retReq (some ⟨"w.jpg"⟩) aiPass true
      ⟨true, 90⟩ 7 "tw" true).db := by
  obtain ⟨p1, p2, p3, _⟩ := invariant_preservation dbMixed (by decide)
  obtain ⟨_, _, _, p4⟩ := invariant_preservation dbOpenBefore (by decide)
  exact ⟨p1 rentReq "rid" "d", p2 reqPowerSaw (by decide),
    p2 reqNegQty (by decide),
    p3 1 (by decide),
    p4 retReq (some ⟨"w.jpg"⟩) aiPass true ⟨true, 90⟩ 7 "tw" true (by decide)⟩

/-- C8 counterexample: the drill of `dbOpenBefore` has a before image
on record, yet with the reference file absent from disk
(`fs.existsSync` false, line 386) the similarity check does not run: a
comparison oracle answering not-similar with score 45 — which the claim
says must abort `ImageMismatch` — is never consulted, the return
succeeds and the log records `imageSimilarity 0`. -/
theorem simcheck_skipped_when_reference_file_missing :
    dbOpenBefore.tools.map (fun t => strTruthy t.beforeImage) = [true] ∧
    (returnCheck dbOpenBefore retReq (some ⟨"up.jpg"⟩) aiPass false
      ⟨false, 45⟩ 7 "t3" true).success = true ∧
    (returnCheck dbOpenBefore retReq (some ⟨"up.jpg"⟩) aiPass false
      ⟨false, 45⟩ 7 "t3" true).db.logs.map (fun l => l.imageSimilarity) = [0] := by
  decide

/-- C8 amended: when the tool has a truthy before image AND the
reference file exists on disk, a comparison that is not similar or
scores below 60 makes the pipeline delete the upload and abort 400 with
the mismatch message, document untouched; when either condition fails
the similarity step is skipped as a pass and a run that then succeeds
logs `imageSimilarity 0`. -/
theorem similarity_gate (db : DB) (req : ReturnRequest) (f : UploadedFile)
    (ai : AIResult) (bfe : Bool) (cmp : CompareResult) (dr : ℤ) (ts : String)
    (sok : Bool) (tool : Tool)
    (hfind : db.tools.find? (fun t => t.id == req.toolId) = some tool)
    (hallow : ai.allow_upload = true) :
    ((strTruthy tool.beforeImage && bfe) = true →
      (!cmp.similar || decide (cmp.score < 60)) = true →
      returnCheck db req (some f) ai bfe cmp dr ts sok =
        { status := 400, success := false,
          message := "The uploaded image does not appear to show the same tool.",
          db := db, fileDeleted := true }) ∧
    ((strTruthy tool.beforeImage && bfe) = false →
      ∀ i, db.rentals.findIdx? (fun r => r.rentalId == req.rentalId) = some i →
        (returnCheck db req (some f) ai bfe cmp dr ts sok).success = true ∧
        ((returnCheck db req (some f) ai bfe cmp dr ts sok).db.logs.getLast?).map
          (fun l => l.imageSimilarity) = some 0) := by
  constructor
  · intro hsim hc
    unfold returnCheck
    rw [hfind]
    simp [hallow, hsim, hc]
  · intro hsim i hidx
    unfold returnCheck
    rw [hfind]
    simp [hallow, hsim, hidx, List.getLast?_concat]

/-- Witness for C8: Scenario C (similarity 45 with the reference file
present aborts; document unchanged) and a no-reference-image success
logging similarity 0. -/
theorem similarity_gate_witness :
    (returnCheck dbOpenBefore retReq (some ⟨"w2.jpg"⟩) aiPass true
      ⟨false, 45⟩ 7 "t4" true =
      { status := 400, success := false,
        message := "The uploaded image does not appear to show the same tool.",
        db := dbOpenBefore, fileDeleted := true }) ∧
    ((returnCheck dbOpenRental retReq (some ⟨"w2.jpg"⟩) aiPass false
      ⟨true, 90⟩ 7 "t4" true).success = true ∧
      ((returnCheck dbOpenRental retReq (some ⟨"w2.jpg"⟩) aiPass false
        ⟨true, 90⟩ 7 "t4" true).db.logs.getLast?).map
        (fun l => l.imageSimilarity) = some 0) :=
  ⟨(similarity_gate dbOpenBefore retReq ⟨"w2.jpg"⟩ aiPass true ⟨false, 45⟩ 7 "t4"
      true toolBefore (by decide) (by decide)).1 (by decide) (by decide),
   (similarity_gate dbOpenRental retReq ⟨"w2.jpg"⟩ aiPass false ⟨true, 90⟩ 7 "t4"
      true toolFree (by decide) (by decide)).2 (by decide) 0 (by decide)⟩

end ToolRental
